import Mathlib

/-!
Verification of the cassandra-crd reconciliation controller
(`pkg/apis/cassandra/v1alpha1/types.go` and the controller file packaged
with it).  The Go code is shallowly embedded: Kubernetes client calls are
modelled by an `Env` of response functions, and every externally visible
action of the controller (API reads/writes, emitted events, log lines,
work-queue operations) is recorded in an `Effect` trace so that theorems
can count and order the calls a sync pass performs.
-/

/-- OwnerReference models `metav1.OwnerReference` restricted to the fields
the controller reads or writes (`Kind`, `Name`, `UID`, `Controller`,
`BlockOwnerDeletion`). -/
structure OwnerReference where
  kind : String
  name : String
  uid : String
  controller : Bool
  blockOwnerDeletion : Bool
deriving DecidableEq, Repr

/-- ObjectMeta models `metav1.ObjectMeta` restricted to the fields the
controller reads or writes (`ns` stands for `Namespace`). -/
structure ObjectMeta where
  name : String
  ns : String
  uid : String
  resourceVersion : String
  labels : List (String × String)
  annotations : List (String × String)
  ownerReferences : List OwnerReference
deriving DecidableEq, Repr

/-- CassandraClusterSpec is the spec for a CassandraCluster resource:
`StatefulSetName string` and `Replicas *int32` (the Go pointer becomes an
`Option`). -/
structure CassandraClusterSpec where
  statefulSetName : String
  replicas : Option Int
deriving DecidableEq, Repr

/-- CassandraClusterStatus is the status for a CassandraCluster resource. -/
structure CassandraClusterStatus where
  currentReplicas : Int
deriving DecidableEq, Repr

/-- CassandraCluster is the domain object reconciled by the controller. -/
structure CassandraCluster where
  meta : ObjectMeta
  spec : CassandraClusterSpec
  status : CassandraClusterStatus
deriving DecidableEq, Repr

/-- EnvVar models `corev1.EnvVar` (a literal value or a fieldRef source). -/
structure EnvVar where
  name : String
  value : String
  fieldRefPath : Option String
deriving DecidableEq, Repr

/-- ContainerPort models `corev1.ContainerPort`. -/
structure ContainerPort where
  name : String
  containerPort : Int
deriving DecidableEq, Repr

/-- Container models the fields of `corev1.Container` set by
`newStatefulSet`: image, env, ports, capabilities, probes, lifecycle. -/
structure Container where
  name : String
  image : String
  env : List EnvVar
  ports : List ContainerPort
  capabilitiesAdd : List String
  readinessExec : List String
  readinessInitialDelaySeconds : Int
  readinessTimeoutSeconds : Int
  preStopExec : List String
deriving DecidableEq, Repr

/-- PodTemplateSpec models `corev1.PodTemplateSpec` restricted to the
fields `newStatefulSet` sets. -/
structure PodTemplateSpec where
  labels : List (String × String)
  containers : List Container
deriving DecidableEq, Repr

/-- StatefulSetSpec models `appsv1.StatefulSetSpec` restricted to the
fields the controller sets or reads (`Replicas *int32` becomes `Option`). -/
structure StatefulSetSpec where
  serviceName : String
  replicas : Option Int
  selectorMatchLabels : List (String × String)
  template : PodTemplateSpec
deriving DecidableEq, Repr

/-- StatefulSetStatus models the `CurrentReplicas` field the controller
reads. -/
structure StatefulSetStatus where
  currentReplicas : Int
deriving DecidableEq, Repr

/-- StatefulSet models `appsv1.StatefulSet` restricted to the fields the
controller touches. -/
structure StatefulSet where
  meta : ObjectMeta
  spec : StatefulSetSpec
  status : StatefulSetStatus
deriving DecidableEq, Repr

/-- ServicePort models `corev1.ServicePort`. -/
structure ServicePort where
  name : String
  port : Int
  targetPort : Int
  protocol : String
deriving DecidableEq, Repr

/-- ServiceSpec models `corev1.ServiceSpec` restricted to the fields the
controller sets. -/
structure ServiceSpec where
  ports : List ServicePort
  selector : List (String × String)
  clusterIP : String
  serviceType : String
deriving DecidableEq, Repr

/-- Service models `corev1.Service` restricted to the fields the
controller sets. -/
structure Service where
  meta : ObjectMeta
  spec : ServiceSpec
deriving DecidableEq, Repr

/-- K8sErr models a Go `error` returned by a client call, keeping just
the distinction `errors.IsNotFound` tests for. -/
inductive K8sErr where
  | notFound
  | other (msg : String)
deriving DecidableEq, Repr

/-- K8sErr.isNotFound models `errors.IsNotFound` applied to a non-nil
error (applied to `nil` it is `false`, which the embedding renders by
matching on `Except.ok` first). -/
def K8sErr.isNotFound : K8sErr → Bool
  | .notFound => true
  | .other _ => false

/-- SyncErr is the error result of `syncHandler`: an error propagated from
a client call, the `fmt.Errorf` conflict error built from
`MessageResourceExists`, or the nil-pointer dereference the Go code would
hit when it dereferences `statefulset.Spec.Replicas` while it is nil. -/
inductive SyncErr where
  | k8s (e : K8sErr)
  | conflict (msg : String)
  | nilDeref
deriving DecidableEq, Repr

/-- QueueItem models an item popped from the work queue: the expected
`namespace/name` string, or a value of any other type (the `obj.(string)`
type assertion failure branch). -/
inductive QueueItem where
  | str (key : String)
  | invalid
deriving DecidableEq, Repr

/-- Effect records one externally visible action of the controller:
a client call (with its arguments), an emitted event, a log line, or a
work-queue operation. -/
inductive Effect where
  | logError (msg : String)
  | logInfo (msg : String)
  | svcGet (ns nm : String)
  | svcCreate (ns : String) (svc : Service)
  | stsGet (ns nm : String)
  | stsCreate (ns : String) (sts : StatefulSet)
  | stsUpdate (ns : String) (sts : StatefulSet)
  | clusterUpdate (ns : String) (obj : CassandraCluster)
  | event (obj : CassandraCluster) (etype reason msg : String)
  | qDone (item : QueueItem)
  | qForget (item : QueueItem)
  | qAddRateLimited (key : String)
deriving DecidableEq, Repr

/-- Env bundles the client interfaces the controller consumes: the
CassandraCluster lister/clientset, the CoreV1 Services client, and the
AppsV1 StatefulSets client plus the StatefulSet lister. -/
structure Env where
  cassandraGet : String → String → Except K8sErr CassandraCluster
  serviceGet : String → String → Except K8sErr Service
  serviceCreate : String → Service → Except K8sErr Service
  statefulSetListerGet : String → String → Except K8sErr StatefulSet
  statefulSetCreate : String → StatefulSet → Except K8sErr StatefulSet
  statefulSetUpdate : String → StatefulSet → Except K8sErr StatefulSet
  cassandraUpdate : String → CassandraCluster → Except K8sErr CassandraCluster

/-- controllerAgentName mirrors the Go constant. -/
def controllerAgentName : String := "cassandra-controller"

/-- SuccessSynced is the Event reason used when a CassandraCluster is
synced. -/
def SuccessSynced : String := "Synced"

/-- ErrResourceExists is the Event reason used when a StatefulSet of the
same name already exists. -/
def ErrResourceExists : String := "ErrResourceExists"

/-- MessageResourceSynced mirrors the Go constant. -/
def MessageResourceSynced : String := "CassandraCluster synced successfully"

/-- messageResourceExists is `fmt.Sprintf(MessageResourceExists, name)`:
the `%q` verb quotes the name. -/
def messageResourceExists (name : String) : String :=
  "Resource \"" ++ name ++ "\" already exists and is not managed by CassandraCluster"

/-- getControllerOf models `metav1.GetControllerOf`: the first owner
reference whose `Controller` flag is set. -/
def getControllerOf (obj : ObjectMeta) : Option OwnerReference :=
  obj.ownerReferences.find? (fun r => r.controller)

/-- isControlledBy models `metav1.IsControlledBy`: the object has a
controller owner reference whose UID equals the owner's UID. -/
def isControlledBy (obj : ObjectMeta) (owner : ObjectMeta) : Bool :=
  match getControllerOf obj with
  | some ref => ref.uid == owner.uid
  | none => false

/-- newControllerRef models `metav1.NewControllerRef` for the
CassandraCluster kind: `Controller` and `BlockOwnerDeletion` are set. -/
def newControllerRef (owner : ObjectMeta) : OwnerReference :=
  { kind := "CassandraCluster"
  , name := owner.name
  , uid := owner.uid
  , controller := true
  , blockOwnerDeletion := true }

/-- cassandraLabels is the label map built at the top of `newStatefulSet`,
`newHeadLessService` and `newHeadLessServiceUnready`. -/
def cassandraLabels (cassandracluster : CassandraCluster) : List (String × String) :=
  [("app", "cassandra"), ("controller", cassandracluster.meta.name)]

/-- cassandraContainer is the single container of the pod template built
by `newStatefulSet`, with the hardcoded image, env, ports, capability,
readiness probe and preStop hook. -/
def cassandraContainer (cassandracluster : CassandraCluster) : Container :=
  { name := "cassandra"
  , image := "gcr.io/google-samples/cassandra:v13"
  , env :=
      [ { name := "CASSANDRA_SEEDS"
        , value := cassandracluster.spec.statefulSetName ++ "-0."
            ++ cassandracluster.spec.statefulSetName ++ "-unready."
            ++ cassandracluster.meta.ns ++ ".svc.cluster.local"
        , fieldRefPath := none }
      , { name := "MAX_HEAP_SIZE", value := "512M", fieldRefPath := none }
      , { name := "HEAP_NEWSIZE", value := "100M", fieldRefPath := none }
      , { name := "POD_IP", value := "", fieldRefPath := some "status.podIP" } ]
  , ports :=
      [ { name := "cql", containerPort := 9042 }
      , { name := "intra-node", containerPort := 7001 }
      , { name := "jmx", containerPort := 7099 } ]
  , capabilitiesAdd := ["IPC_LOCK"]
  , readinessExec := ["/bin/bash", "-c", "/ready-probe.sh"]
  , readinessInitialDelaySeconds := 15
  , readinessTimeoutSeconds := 5
  , preStopExec := ["/bin/sh", "-c", "nodetool", "drain"] }

/-- newStatefulSet creates a new StatefulSet for a CassandraCluster
resource, with a controller owner reference and the full hardcoded pod
template; its replicas come from the CassandraCluster spec. -/
def newStatefulSet (cassandracluster : CassandraCluster) : StatefulSet :=
  { meta :=
      { name := cassandracluster.spec.statefulSetName
      , ns := cassandracluster.meta.ns
      , uid := ""
      , resourceVersion := ""
      , labels := []
      , annotations := []
      , ownerReferences := [newControllerRef cassandracluster.meta] }
  , spec :=
      { serviceName := cassandracluster.spec.statefulSetName ++ "-unready"
      , replicas := cassandracluster.spec.replicas
      , selectorMatchLabels := cassandraLabels cassandracluster
      , template :=
          { labels := cassandraLabels cassandracluster
          , containers := [cassandraContainer cassandracluster] } }
  , status := { currentReplicas := 0 } }

/-- newHeadLessServiceUnready creates the `<name>-unready` headless
Service, annotated to tolerate unready endpoints. -/
def newHeadLessServiceUnready (cassandracluster : CassandraCluster) : Service :=
  { meta :=
      { name := cassandracluster.spec.statefulSetName ++ "-unready"
      , ns := cassandracluster.meta.ns
      , uid := ""
      , resourceVersion := ""
      , labels := cassandraLabels cassandracluster
      , annotations := [("service.alpha.kubernetes.io/tolerate-unready-endpoints", "true")]
      , ownerReferences := [newControllerRef cassandracluster.meta] }
  , spec :=
      { ports := [{ name := "cql", port := 9042, targetPort := 9042, protocol := "TCP" }]
      , selector := cassandraLabels cassandracluster
      , clusterIP := "None"
      , serviceType := "ClusterIP" } }

/-- newHeadLessService creates the `<name>` headless Service. -/
def newHeadLessService (cassandracluster : CassandraCluster) : Service :=
  { meta :=
      { name := cassandracluster.spec.statefulSetName
      , ns := cassandracluster.meta.ns
      , uid := ""
      , resourceVersion := ""
      , labels := cassandraLabels cassandracluster
      , annotations := []
      , ownerReferences := [newControllerRef cassandracluster.meta] }
  , spec :=
      { ports := [{ name := "cql", port := 9042, targetPort := 9042, protocol := "TCP" }]
      , selector := cassandraLabels cassandracluster
      , clusterIP := "None"
      , serviceType := "ClusterIP" } }

/-- splitCharsOnSlash splits a character list on `'/'`, mirroring
`strings.Split(key, "/")` for the one-character separator (an empty input
yields one empty field). -/
def splitCharsOnSlash : List Char → List (List Char)
  | [] => [[]]
  | c :: cs =>
    let rest := splitCharsOnSlash cs
    if c = '/' then [] :: rest
    else
      match rest with
      | r :: rs => (c :: r) :: rs
      | [] => [[c]]

/-- splitMetaNamespaceKey models `cache.SplitMetaNamespaceKey`:
`strings.Split` on `"/"`, then one part is a bare name, two parts are
namespace and name, anything else is an error. -/
def splitMetaNamespaceKey (key : String) : Except String (String × String) :=
  match (splitCharsOnSlash key.toList).map (fun l => String.mk l) with
  | [name] => .ok ("", name)
  | [ns, name] => .ok (ns, name)
  | _ => .error ("unexpected key format: " ++ key)

/-- metaNamespaceKeyFunc models `cache.MetaNamespaceKeyFunc` on a typed
object (the error branch is unreachable for typed objects). -/
def metaNamespaceKeyFunc (obj : ObjectMeta) : String :=
  if obj.ns = "" then obj.name else obj.ns ++ "/" ++ obj.name

/-- getOrCreateService embeds the repeated get-or-create block of
`syncHandler` for a headless Service: `Get`, then `Create` only when the
get error is NotFound, then the immediate `if err != nil` check. The
first component is the value of `err` after the block. -/
def getOrCreateService (env : Env) (ns nm : String) (svc : Service) :
    Option K8sErr × List Effect :=
  match env.serviceGet ns nm with
  | .ok _ => (none, [Effect.svcGet ns nm])
  | .error e =>
    if e.isNotFound then
      match env.serviceCreate ns svc with
      | .ok _ => (none, [Effect.svcGet ns nm, Effect.svcCreate ns svc])
      | .error e2 => (some e2, [Effect.svcGet ns nm, Effect.svcCreate ns svc])
    else
      (some e, [Effect.svcGet ns nm])

/-- getOrCreateStatefulSet embeds the StatefulSet get-or-create block of
`syncHandler`: lister `Get`, then clientset `Create` only when the get
error is NotFound, keeping the obtained StatefulSet. -/
def getOrCreateStatefulSet (env : Env) (ns nm : String) (sts : StatefulSet) :
    Except K8sErr StatefulSet × List Effect :=
  match env.statefulSetListerGet ns nm with
  | .ok s => (.ok s, [Effect.stsGet ns nm])
  | .error e =>
    if e.isNotFound then
      match env.statefulSetCreate ns sts with
      | .ok s => (.ok s, [Effect.stsGet ns nm, Effect.stsCreate ns sts])
      | .error e2 => (.error e2, [Effect.stsGet ns nm, Effect.stsCreate ns sts])
    else
      (.error e, [Effect.stsGet ns nm])

/-- CassandraCluster.deepCopy models the generated `DeepCopy`: a
field-by-field copy of the object (pure values make the copy structural). -/
def CassandraCluster.deepCopy (c : CassandraCluster) : CassandraCluster :=
  { meta := c.meta, spec := c.spec, status := c.status }

/-- updateCassandraClusterStatus deep-copies the cached CassandraCluster,
sets `Status.CurrentReplicas` from the StatefulSet's status on the copy,
and issues a clientset `Update` with the copy; the cached object itself
is never passed to `Update`. -/
def updateCassandraClusterStatus (env : Env) (cassandracluster : CassandraCluster)
    (statefulset : StatefulSet) : Option K8sErr × List Effect :=
  let cassandraclusterCopy :=
    { cassandracluster.deepCopy with
        status := { currentReplicas := statefulset.status.currentReplicas } }
  match env.cassandraUpdate cassandracluster.meta.ns cassandraclusterCopy with
  | .ok _ => (none, [Effect.clusterUpdate cassandracluster.meta.ns cassandraclusterCopy])
  | .error e => (some e, [Effect.clusterUpdate cassandracluster.meta.ns cassandraclusterCopy])

/-- syncStatus is the tail of `syncHandler`: the status update followed,
on success, by the `SuccessSynced` event on the cached object. -/
def syncStatus (env : Env) (cassandracluster : CassandraCluster)
    (statefulset : StatefulSet) : Option SyncErr × List Effect :=
  let r := updateCassandraClusterStatus env cassandracluster statefulset
  match r.1 with
  | some e => (some (SyncErr.k8s e), r.2)
  | none =>
    (none, r.2 ++ [Effect.event cassandracluster "Normal" SuccessSynced MessageResourceSynced])

/-- syncFromStatefulSet is `syncHandler` from the ownership check on:
conflict event and error when the StatefulSet is not controlled by the
CassandraCluster, otherwise the replica drift check (dereferencing both
replica pointers as the Go code does), the conditional full-template
`Update`, and the status tail. -/
def syncFromStatefulSet (env : Env) (cassandracluster : CassandraCluster)
    (statefulset : StatefulSet) : Option SyncErr × List Effect :=
  if ! isControlledBy statefulset.meta cassandracluster.meta then
    let msg := messageResourceExists statefulset.meta.name
    (some (SyncErr.conflict msg),
      [Effect.event cassandracluster "Warning" ErrResourceExists msg])
  else
    match cassandracluster.spec.replicas with
    | none => syncStatus env cassandracluster statefulset
    | some desired =>
      match statefulset.spec.replicas with
      | none => (some SyncErr.nilDeref, [])
      | some current =>
        if desired != current then
          match env.statefulSetUpdate cassandracluster.meta.ns (newStatefulSet cassandracluster) with
          | .ok sts2 =>
            let r := syncStatus env cassandracluster sts2
            (r.1, Effect.stsUpdate cassandracluster.meta.ns (newStatefulSet cassandracluster) :: r.2)
          | .error e =>
            (some (SyncErr.k8s e),
              [Effect.stsUpdate cassandracluster.meta.ns (newStatefulSet cassandracluster)])
        else
          syncStatus env cassandracluster statefulset

/-- syncWithCluster is `syncHandler` once the CassandraCluster has been
fetched: spec validation, then the two headless Services and the
StatefulSet in order with an error check immediately after each block. -/
def syncWithCluster (env : Env) (key : String) (cassandracluster : CassandraCluster) :
    Option SyncErr × List Effect :=
  let stsName := cassandracluster.spec.statefulSetName
  if stsName = "" then
    (none, [Effect.logError (key ++ ": statefulset name must be specified")])
  else
    let ns := cassandracluster.meta.ns
    let r1 := getOrCreateService env ns (stsName ++ "-unready") (newHeadLessServiceUnready cassandracluster)
    match r1.1 with
    | some e => (some (SyncErr.k8s e), r1.2)
    | none =>
      let r2 := getOrCreateService env ns stsName (newHeadLessService cassandracluster)
      match r2.1 with
      | some e => (some (SyncErr.k8s e), r1.2 ++ r2.2)
      | none =>
        let r3 := getOrCreateStatefulSet env ns stsName (newStatefulSet cassandracluster)
        match r3.1 with
        | .error e => (some (SyncErr.k8s e), r1.2 ++ r2.2 ++ r3.2)
        | .ok statefulset =>
          let r4 := syncFromStatefulSet env cassandracluster statefulset
          (r4.1, r1.2 ++ r2.2 ++ r3.2 ++ r4.2)

/-- syncHandler compares the actual state with the desired and attempts
to converge the two: key split, cache fetch (not-found is absorbed),
then `syncWithCluster`. -/
def syncHandler (env : Env) (key : String) : Option SyncErr × List Effect :=
  match splitMetaNamespaceKey key with
  | .error _ => (none, [Effect.logError ("invalid resource key: " ++ key)])
  | .ok (ns, nm) =>
    match env.cassandraGet ns nm with
    | .error e =>
      if e.isNotFound then
        (none, [Effect.logError ("cassandracluster '" ++ key ++ "' in work queue no longer exists")])
      else
        (some (SyncErr.k8s e), [])
    | .ok cassandracluster => syncWithCluster env key cassandracluster

/-- processNextWorkItem reads one item off the work queue (`none` models
`Get` returning `shutdown`), runs `syncHandler`, and applies the queue
bookkeeping the Go code performs: deferred `Done` always; `Forget` only on
the invalid-item branch and on sync success; errors are only handed to
`runtime.HandleError` after the deferred `Done` runs. -/
def processNextWorkItem (env : Env) (got : Option QueueItem) : Bool × List Effect :=
  match got with
  | none => (false, [])
  | some QueueItem.invalid =>
    (true,
      [Effect.qForget QueueItem.invalid,
       Effect.logError "expected string in workqueue but got non-string item",
       Effect.qDone QueueItem.invalid])
  | some (QueueItem.str key) =>
    let r := syncHandler env key
    match r.1 with
    | some _ =>
      (true, r.2 ++
        [Effect.qDone (QueueItem.str key),
         Effect.logError ("error syncing '" ++ key ++ "'")])
    | none =>
      (true, r.2 ++
        [Effect.qForget (QueueItem.str key),
         Effect.logInfo ("Successfully synced '" ++ key ++ "'"),
         Effect.qDone (QueueItem.str key)])

/-- enqueueCassandraCluster converts the object to a `namespace/name` key
and adds it to the work queue with `AddRateLimited`. -/
def enqueueCassandraCluster (cassandracluster : CassandraCluster) : List Effect :=
  [Effect.qAddRateLimited (metaNamespaceKeyFunc cassandracluster.meta)]

/-- handleObject looks up the controller owner reference of a derived
object; non-CassandraCluster owners and orphaned references are dropped,
otherwise the owning CassandraCluster is enqueued. -/
def handleObject (env : Env) (obj : ObjectMeta) : List Effect :=
  match getControllerOf obj with
  | none => []
  | some ownerRef =>
    if ownerRef.kind != "CassandraCluster" then []
    else
      match env.cassandraGet obj.ns ownerRef.name with
      | .error _ => []
      | .ok cassandracluster => enqueueCassandraCluster cassandracluster

/-- cassandraClusterUpdateFunc is the `UpdateFunc` registered on the
CassandraCluster informer: it enqueues the new object unconditionally. -/
def cassandraClusterUpdateFunc (oldObj newObj : CassandraCluster) : List Effect :=
  enqueueCassandraCluster newObj

/-- statefulSetUpdateFunc is the `UpdateFunc` registered on the
StatefulSet informer: equal resource versions (periodic resync) are
dropped, otherwise the object is routed through `handleObject`. -/
def statefulSetUpdateFunc (env : Env) (oldObj newObj : StatefulSet) : List Effect :=
  if newObj.meta.resourceVersion == oldObj.meta.resourceVersion then []
  else handleObject env newObj.meta

/-- Effect.isSvcStsWrite selects Create/Update calls to the Services and
StatefulSets clients. -/
def Effect.isSvcStsWrite : Effect → Bool
  | .svcCreate _ _ => true
  | .stsCreate _ _ => true
  | .stsUpdate _ _ => true
  | _ => false

/-- Effect.isStsMutation selects Create/Update calls to the StatefulSets
client. -/
def Effect.isStsMutation : Effect → Bool
  | .stsCreate _ _ => true
  | .stsUpdate _ _ => true
  | _ => false

/-- Effect.isStsUpdateCall selects Update calls to the StatefulSets
client. -/
def Effect.isStsUpdateCall : Effect → Bool
  | .stsUpdate _ _ => true
  | _ => false

/-- Effect.isClusterUpdateCall selects Update calls to the
CassandraClusters client. -/
def Effect.isClusterUpdateCall : Effect → Bool
  | .clusterUpdate _ _ => true
  | _ => false

/-- Effect.isClientCall selects any call to the Services, StatefulSets or
CassandraClusters clients (reads included). -/
def Effect.isClientCall : Effect → Bool
  | .svcGet _ _ => true
  | .svcCreate _ _ => true
  | .stsGet _ _ => true
  | .stsCreate _ _ => true
  | .stsUpdate _ _ => true
  | .clusterUpdate _ _ => true
  | _ => false

/-- Effect.isWarningEvent selects warning events with the given reason. -/
def Effect.isWarningEvent (reason : String) : Effect → Bool
  | .event _ etype r _ => etype == "Warning" && r == reason
  | _ => false

/-- Effect.isLogError selects error log lines. -/
def Effect.isLogError : Effect → Bool
  | .logError _ => true
  | _ => false

/-- Effect.isAddRateLimited selects rate-limited work-queue additions. -/
def Effect.isAddRateLimited : Effect → Bool
  | .qAddRateLimited _ => true
  | _ => false

/-- Effect.isQDone selects work-queue `Done` calls. -/
def Effect.isQDone : Effect → Bool
  | .qDone _ => true
  | _ => false

/-- Effect.isQueueOp selects work-queue operations. -/
def Effect.isQueueOp : Effect → Bool
  | .qDone _ => true
  | .qForget _ => true
  | .qAddRateLimited _ => true
  | _ => false

/-- ccSample is a concrete CassandraCluster used to instantiate theorems:
namespace `default`, name `example`, target StatefulSet `cassandra`,
three desired replicas. -/
def ccSample : CassandraCluster :=
  { meta :=
      { name := "example", ns := "default", uid := "uid-cc-1", resourceVersion := "41"
      , labels := [], annotations := [], ownerReferences := [] }
  , spec := { statefulSetName := "cassandra", replicas := some 3 }
  , status := { currentReplicas := 0 } }

/-- ccEmptyName is `ccSample` with an empty `Spec.StatefulSetName`. -/
def ccEmptyName : CassandraCluster :=
  { ccSample with spec := { statefulSetName := "", replicas := some 3 } }

/-- stsOwned is a StatefulSet controller-owned by `ccSample` whose spec
replica count already equals the desired three and whose status reports
three current replicas. -/
def stsOwned : StatefulSet :=
  { meta :=
      { name := "cassandra", ns := "default", uid := "uid-sts-1", resourceVersion := "7"
      , labels := [], annotations := []
      , ownerReferences := [newControllerRef ccSample.meta] }
  , spec :=
      { serviceName := "cassandra-unready", replicas := some 3
      , selectorMatchLabels := cassandraLabels ccSample
      , template :=
          { labels := cassandraLabels ccSample
          , containers := [cassandraContainer ccSample] } }
  , status := { currentReplicas := 3 } }

/-- stsDrift is `stsOwned` with only one spec replica and one current
replica: the drift-correction input of the convergence property. -/
def stsDrift : StatefulSet :=
  { stsOwned with
      spec := { stsOwned.spec with replicas := some 1 }
    , status := { currentReplicas := 1 } }

/-- stsForeign is a StatefulSet of the expected name with no controller
owner reference, so it is not controlled by `ccSample`. -/
def stsForeign : StatefulSet :=
  { stsOwned with
      meta := { stsOwned.meta with uid := "uid-sts-2", ownerReferences := [] } }

/-- envOf builds an Env whose lookups all succeed with the given objects
and whose writes echo their argument. -/
def envOf (cc : CassandraCluster) (sts : StatefulSet) : Env :=
  { cassandraGet := fun _ _ => .ok cc
  , serviceGet := fun _ nm =>
      .ok (if nm = cc.spec.statefulSetName then newHeadLessService cc
           else newHeadLessServiceUnready cc)
  , serviceCreate := fun _ s => .ok s
  , statefulSetListerGet := fun _ _ => .ok sts
  , statefulSetCreate := fun _ s => .ok s
  , statefulSetUpdate := fun _ s => .ok s
  , cassandraUpdate := fun _ c => .ok c }

/-- envConverged is the steady state: every derived resource exists, is
owned by `ccSample`, and replica counts agree. -/
def envConverged : Env := envOf ccSample stsOwned

/-- envForeign has the named StatefulSet present but foreign-owned. -/
def envForeign : Env := envOf ccSample stsForeign

/-- envDrift has the owned StatefulSet at one replica while `ccSample`
asks for three. -/
def envDrift : Env := envOf ccSample stsDrift

/-- envEmptyName returns a CassandraCluster whose target StatefulSet name
is empty. -/
def envEmptyName : Env := envOf ccEmptyName stsOwned

/-- envLookupFail makes the CassandraCluster cache lookup fail with a
non-NotFound (transient) error. -/
def envLookupFail : Env :=
  { envConverged with cassandraGet := fun _ _ => .error (K8sErr.other "transient API failure") }

/-- envLookupGone makes the CassandraCluster cache lookup fail NotFound. -/
def envLookupGone : Env :=
  { envConverged with cassandraGet := fun _ _ => .error K8sErr.notFound }

/-- envSvcFail makes the first (unready) Service Get fail with a
non-NotFound error. -/
def envSvcFail : Env :=
  { envConverged with serviceGet := fun _ _ => .error (K8sErr.other "transient API failure") }

/-- getOrCreateService_ok computes the get-or-create block when the Get
succeeds: no error and a single read in the trace. -/
theorem getOrCreateService_ok (env : Env) (ns nm : String) (svc got : Service)
    (h : env.serviceGet ns nm = Except.ok got) :
    getOrCreateService env ns nm svc = (none, [Effect.svcGet ns nm]) := by
  simp [getOrCreateService, h]

/-- getOrCreateStatefulSet_ok computes the StatefulSet get-or-create block
when the lister Get succeeds. -/
theorem getOrCreateStatefulSet_ok (env : Env) (ns nm : String) (sts got : StatefulSet)
    (h : env.statefulSetListerGet ns nm = Except.ok got) :
    getOrCreateStatefulSet env ns nm sts = (.ok got, [Effect.stsGet ns nm]) := by
  simp [getOrCreateStatefulSet, h]

/-- getOrCreateService_effects restricts the trace of a Service
get-or-create block to Service reads and creates. -/
theorem getOrCreateService_effects (env : Env) (ns nm : String) (svc : Service) :
    ∀ e ∈ (getOrCreateService env ns nm svc).2,
      (∃ a b, e = Effect.svcGet a b) ∨ (∃ a s, e = Effect.svcCreate a s) := by
  unfold getOrCreateService
  split
  · simp
  · split
    · split <;> simp
    · simp

/-- getOrCreateStatefulSet_effects restricts the trace of the StatefulSet
get-or-create block to StatefulSet reads and creates. -/
theorem getOrCreateStatefulSet_effects (env : Env) (ns nm : String) (sts : StatefulSet) :
    ∀ e ∈ (getOrCreateStatefulSet env ns nm sts).2,
      (∃ a b, e = Effect.stsGet a b) ∨ (∃ a s, e = Effect.stsCreate a s) := by
  unfold getOrCreateStatefulSet
  split
  · simp
  · split
    · split <;> simp
    · simp

/-- updateCassandraClusterStatus_trace shows the status writer always
issues exactly one CassandraCluster Update, carrying the copy. -/
theorem updateCassandraClusterStatus_trace (env : Env)
    (cassandracluster : CassandraCluster) (statefulset : StatefulSet) :
    (updateCassandraClusterStatus env cassandracluster statefulset).2 =
      [Effect.clusterUpdate cassandracluster.meta.ns
        { cassandracluster.deepCopy with
            status := { currentReplicas := statefulset.status.currentReplicas } }] := by
  cases h : env.cassandraUpdate cassandracluster.meta.ns
      { cassandracluster.deepCopy with
          status := { currentReplicas := statefulset.status.currentReplicas } } <;>
    simp [updateCassandraClusterStatus, h]

/-- syncStatus_trace shows the status tail issues exactly one cluster
Update followed, on success only, by the Synced event. -/
theorem syncStatus_trace (env : Env) (cassandracluster : CassandraCluster)
    (statefulset : StatefulSet) :
    (syncStatus env cassandracluster statefulset).2 =
      [Effect.clusterUpdate cassandracluster.meta.ns
        { cassandracluster.deepCopy with
            status := { currentReplicas := statefulset.status.currentReplicas } }] ∨
    (syncStatus env cassandracluster statefulset).2 =
      [Effect.clusterUpdate cassandracluster.meta.ns
        { cassandracluster.deepCopy with
            status := { currentReplicas := statefulset.status.currentReplicas } },
       Effect.event cassandracluster "Normal" SuccessSynced MessageResourceSynced] := by
  have ht := updateCassandraClusterStatus_trace env cassandracluster statefulset
  cases h1 : (updateCassandraClusterStatus env cassandracluster statefulset).1 with
  | none => right; simp [syncStatus, h1, ht]
  | some e => left; simp [syncStatus, h1, ht]

/-- getOrCreateService_no_queueOp: the Service get-or-create block never
touches the work queue. -/
theorem getOrCreateService_no_queueOp (env : Env) (ns nm : String) (svc : Service) :
    ∀ e ∈ (getOrCreateService env ns nm svc).2, e.isQueueOp = false := by
  intro e he
  rcases getOrCreateService_effects env ns nm svc e he with ⟨a, b, rfl⟩ | ⟨a, s, rfl⟩ <;> rfl

/-- getOrCreateStatefulSet_no_queueOp: the StatefulSet get-or-create block
never touches the work queue. -/
theorem getOrCreateStatefulSet_no_queueOp (env : Env) (ns nm : String) (sts : StatefulSet) :
    ∀ e ∈ (getOrCreateStatefulSet env ns nm sts).2, e.isQueueOp = false := by
  intro e he
  rcases getOrCreateStatefulSet_effects env ns nm sts e he with ⟨a, b, rfl⟩ | ⟨a, s, rfl⟩ <;> rfl

/-- syncStatus_no_queueOp: the status tail never touches the work queue. -/
theorem syncStatus_no_queueOp (env : Env) (cassandracluster : CassandraCluster)
    (statefulset : StatefulSet) :
    ∀ e ∈ (syncStatus env cassandracluster statefulset).2, e.isQueueOp = false := by
  intro e he
  rcases syncStatus_trace env cassandracluster statefulset with h | h <;> rw [h] at he
  · simp at he; subst he; rfl
  · simp at he; rcases he with he | he <;> (subst he; rfl)

/-- syncFromStatefulSet_no_queueOp: the ownership/drift/status phase never
touches the work queue. -/
theorem syncFromStatefulSet_no_queueOp (env : Env) (cassandracluster : CassandraCluster)
    (statefulset : StatefulSet) :
    ∀ e ∈ (syncFromStatefulSet env cassandracluster statefulset).2, e.isQueueOp = false := by
  intro e he
  by_cases hc : isControlledBy statefulset.meta cassandracluster.meta = true
  · rcases hrep : cassandracluster.spec.replicas with _ | desired
    · simp only [syncFromStatefulSet, hc, hrep, Bool.not_true, Bool.false_eq_true,
        if_false] at he
      exact syncStatus_no_queueOp env cassandracluster statefulset e he
    · rcases hstsr : statefulset.spec.replicas with _ | current
      · simp only [syncFromStatefulSet, hc, hrep, hstsr, Bool.not_true, Bool.false_eq_true,
          if_false] at he
        exact absurd he (List.not_mem_nil e)
      · by_cases hne : (desired != current) = true
        · cases hupd : env.statefulSetUpdate cassandracluster.meta.ns
              (newStatefulSet cassandracluster) with
          | ok sts2 =>
            simp only [syncFromStatefulSet, hc, hrep, hstsr, hne, hupd, Bool.not_true,
              Bool.false_eq_true, if_false, if_true, List.mem_cons] at he
            rcases he with rfl | he
            · rfl
            · exact syncStatus_no_queueOp env cassandracluster sts2 e he
          | error err =>
            simp only [syncFromStatefulSet, hc, hrep, hstsr, hne, hupd, Bool.not_true,
              Bool.false_eq_true, if_false, if_true, List.mem_singleton] at he
            subst he; rfl
        · simp only [syncFromStatefulSet, hc, hrep, hstsr, hne, Bool.not_true,
            Bool.false_eq_true, if_false] at he
          exact syncStatus_no_queueOp env cassandracluster statefulset e he
  · simp only [syncFromStatefulSet, Bool.not_eq_true] at hc
    simp only [syncFromStatefulSet, hc, Bool.not_false, if_true, List.mem_singleton] at he
    subst he; rfl

/-- syncWithCluster_no_queueOp: the per-object sync body never touches the
work queue. -/
theorem syncWithCluster_no_queueOp (env : Env) (key : String)
    (cassandracluster : CassandraCluster) :
    ∀ e ∈ (syncWithCluster env key cassandracluster).2, e.isQueueOp = false := by
  intro e he
  by_cases hname : cassandracluster.spec.statefulSetName = ""
  · simp only [syncWithCluster, hname, if_true, List.mem_singleton] at he
    subst he; rfl
  · cases h1 : (getOrCreateService env cassandracluster.meta.ns
        (cassandracluster.spec.statefulSetName ++ "-unready")
        (newHeadLessServiceUnready cassandracluster)).1 with
    | some e1 =>
      simp only [syncWithCluster, hname, h1, if_false] at he
      exact getOrCreateService_no_queueOp env _ _ _ e he
    | none =>
      cases h2 : (getOrCreateService env cassandracluster.meta.ns
          cassandracluster.spec.statefulSetName
          (newHeadLessService cassandracluster)).1 with
      | some e2 =>
        simp only [syncWithCluster, hname, h1, h2, if_false, List.mem_append] at he
        rcases he with he | he
        · exact getOrCreateService_no_queueOp env _ _ _ e he
        · exact getOrCreateService_no_queueOp env _ _ _ e he
      | none =>
        cases h3 : (getOrCreateStatefulSet env cassandracluster.meta.ns
            cassandracluster.spec.statefulSetName
            (newStatefulSet cassandracluster)).1 with
        | error e3 =>
          simp only [syncWithCluster, hname, h1, h2, h3, if_false, List.mem_append] at he
          rcases he with (he | he) | he
          · exact getOrCreateService_no_queueOp env _ _ _ e he
          · exact getOrCreateService_no_queueOp env _ _ _ e he
          · exact getOrCreateStatefulSet_no_queueOp env _ _ _ e he
        | ok statefulset =>
          simp only [syncWithCluster, hname, h1, h2, h3, if_false, List.mem_append] at he
          rcases he with ((he | he) | he) | he
          · exact getOrCreateService_no_queueOp env _ _ _ e he
          · exact getOrCreateService_no_queueOp env _ _ _ e he
          · exact getOrCreateStatefulSet_no_queueOp env _ _ _ e he
          · exact syncFromStatefulSet_no_queueOp env cassandracluster statefulset e he

/-- syncHandler_no_queueOp: a sync pass performs client calls, events and
logs, but no work-queue operation of its own. -/
theorem syncHandler_no_queueOp (env : Env) (key : String) :
    ∀ e ∈ (syncHandler env key).2, e.isQueueOp = false := by
  intro e he
  cases hk : splitMetaNamespaceKey key with
  | error msg =>
    simp only [syncHandler, hk, List.mem_singleton] at he
    subst he; rfl
  | ok p =>
    obtain ⟨ns, nm⟩ := p
    cases hg : env.cassandraGet ns nm with
    | ok cassandracluster =>
      simp only [syncHandler, hk, hg] at he
      exact syncWithCluster_no_queueOp env key cassandracluster e he
    | error err =>
      cases herr : err.isNotFound with
      | true =>
        simp only [syncHandler, hk, hg, herr, if_true, List.mem_singleton] at he
        subst he; rfl
      | false =>
        simp only [syncHandler, hk, hg, herr, Bool.false_eq_true, if_false] at he
        exact absurd he (List.not_mem_nil e)

/-- syncHandler_countP_addRateLimited: no sync pass adds anything to the
work queue. -/
theorem syncHandler_countP_addRateLimited (env : Env) (key : String) :
    ((syncHandler env key).2).countP Effect.isAddRateLimited = 0 := by
  rw [List.countP_eq_zero]
  intro a ha
  have h := syncHandler_no_queueOp env key a ha
  cases a <;> simp_all [Effect.isQueueOp, Effect.isAddRateLimited]

/-- syncStatus_no_svcStsWrite: the status tail issues no Service or
StatefulSet write. -/
theorem syncStatus_no_svcStsWrite (env : Env) (cassandracluster : CassandraCluster)
    (statefulset : StatefulSet) :
    ((syncStatus env cassandracluster statefulset).2).countP Effect.isSvcStsWrite = 0 := by
  rcases syncStatus_trace env cassandracluster statefulset with h | h <;> rw [h] <;> rfl

/-- syncStatus_no_stsUpdateCall: the status tail issues no StatefulSet
Update. -/
theorem syncStatus_no_stsUpdateCall (env : Env) (cassandracluster : CassandraCluster)
    (statefulset : StatefulSet) :
    ((syncStatus env cassandracluster statefulset).2).countP Effect.isStsUpdateCall = 0 := by
  rcases syncStatus_trace env cassandracluster statefulset with h | h <;> rw [h] <;> rfl

/-- syncStatus_one_clusterUpdate: the status tail issues exactly one
CassandraCluster Update. -/
theorem syncStatus_one_clusterUpdate (env : Env) (cassandracluster : CassandraCluster)
    (statefulset : StatefulSet) :
    ((syncStatus env cassandracluster statefulset).2).countP Effect.isClusterUpdateCall = 1 := by
  rcases syncStatus_trace env cassandracluster statefulset with h | h <;> rw [h] <;> rfl

/-- getOrCreateService_no_clusterUpdate: the Service get-or-create block
issues no CassandraCluster Update. -/
theorem getOrCreateService_no_clusterUpdate (env : Env) (ns nm : String) (svc : Service) :
    ((getOrCreateService env ns nm svc).2).countP Effect.isClusterUpdateCall = 0 := by
  rw [List.countP_eq_zero]
  intro a ha
  rcases getOrCreateService_effects env ns nm svc a ha with ⟨x, y, rfl⟩ | ⟨x, s, rfl⟩ <;> simp [Effect.isClusterUpdateCall]

/-- getOrCreateStatefulSet_no_clusterUpdate: the StatefulSet get-or-create
block issues no CassandraCluster Update. -/
theorem getOrCreateStatefulSet_no_clusterUpdate (env : Env) (ns nm : String) (sts : StatefulSet) :
    ((getOrCreateStatefulSet env ns nm sts).2).countP Effect.isClusterUpdateCall = 0 := by
  rw [List.countP_eq_zero]
  intro a ha
  rcases getOrCreateStatefulSet_effects env ns nm sts a ha with ⟨x, y, rfl⟩ | ⟨x, s, rfl⟩ <;> simp [Effect.isClusterUpdateCall]

/-- C1: the spec says a key whose sync fails is re-added to the work queue
with a rate-limited (backoff) add.  The code never does this: no branch of
`processNextWorkItem` calls `AddRateLimited`, so after a sync error the
deferred `Done` drops the key (its rate-limiter failure state is left
intact only because `Forget` is also skipped) and nothing retries it.
The first conjunct proves no execution of the worker ever issues a
rate-limited add; the remaining conjuncts evaluate the failing input: a
transient (non-NotFound) lookup error makes `syncHandler` fail, and the
worker then performs exactly one `Done` and zero re-adds. -/
theorem processNextWorkItem_never_requeues :
    (∀ (env : Env) (got : Option QueueItem),
        ((processNextWorkItem env got).2).countP Effect.isAddRateLimited = 0) ∧
    (syncHandler envLookupFail "default/example").1 =
      some (SyncErr.k8s (K8sErr.other "transient API failure")) ∧
    ((processNextWorkItem envLookupFail (some (QueueItem.str "default/example"))).2).countP
        Effect.isQDone = 1 := by
  refine ⟨?_, by decide, by decide⟩
  intro env got
  cases got with
  | none => rfl
  | some item =>
    cases item with
    | invalid => rfl
    | str key =>
      cases hs : (syncHandler env key).1 with
      | some e =>
        simp only [processNextWorkItem, hs]
        rw [List.countP_append, syncHandler_countP_addRateLimited]
        rfl
      | none =>
        simp only [processNextWorkItem, hs]
        rw [List.countP_append, syncHandler_countP_addRateLimited]
        rfl

/-- C5: when `Spec.StatefulSetName` is empty, `syncHandler` absorbs the
validation failure: it returns nil (no requeue), performs zero client
calls, and logs exactly once. -/
theorem syncHandler_emptyName (env : Env) (key ns nm : String)
    (cassandracluster : CassandraCluster)
    (hkey : splitMetaNamespaceKey key = Except.ok (ns, nm))
    (hget : env.cassandraGet ns nm = Except.ok cassandracluster)
    (hname : cassandracluster.spec.statefulSetName = "") :
    syncHandler env key =
        (none, [Effect.logError (key ++ ": statefulset name must be specified")]) ∧
    ((syncHandler env key).2).countP Effect.isClientCall = 0 ∧
    ((syncHandler env key).2).countP Effect.isLogError = 1 := by
  have h : syncHandler env key =
      (none, [Effect.logError (key ++ ": statefulset name must be specified")]) := by
    simp [syncHandler, hkey, hget, syncWithCluster, hname]
  refine ⟨h, ?_, ?_⟩ <;> rw [h] <;> rfl

/-- C5 witness at the concrete input `default/example` with an
empty-name CassandraCluster. -/
theorem syncHandler_emptyName_witness :
    syncHandler envEmptyName "default/example" =
        (none, [Effect.logError ("default/example" ++ ": statefulset name must be specified")]) ∧
    ((syncHandler envEmptyName "default/example").2).countP Effect.isClientCall = 0 ∧
    ((syncHandler envEmptyName "default/example").2).countP Effect.isLogError = 1 :=
  syncHandler_emptyName envEmptyName "default/example" "default" "example" ccEmptyName
    rfl rfl rfl

/-- C6: a NotFound CassandraCluster cache lookup is absorbed (nil return,
one log line, nothing else), while any other lookup error is returned to
the caller as-is. -/
theorem syncHandler_lookup_errors (env : Env) (key ns nm msg : String)
    (hkey : splitMetaNamespaceKey key = Except.ok (ns, nm)) :
    (env.cassandraGet ns nm = Except.error K8sErr.notFound →
      syncHandler env key =
        (none, [Effect.logError ("cassandracluster '" ++ key ++ "' in work queue no longer exists")])) ∧
    (env.cassandraGet ns nm = Except.error (K8sErr.other msg) →
      (syncHandler env key).1 = some (SyncErr.k8s (K8sErr.other msg))) := by
  constructor
  · intro h
    simp [syncHandler, hkey, h, K8sErr.isNotFound]
  · intro h
    simp [syncHandler, hkey, h, K8sErr.isNotFound]

/-- C6 witness at the concrete input `default/example` against an Env
whose lookup reports NotFound. -/
theorem syncHandler_lookup_errors_witness :
    (envLookupGone.cassandraGet "default" "example" = Except.error K8sErr.notFound →
      syncHandler envLookupGone "default/example" =
        (none, [Effect.logError ("cassandracluster '" ++ "default/example" ++ "' in work queue no longer exists")])) ∧
    (envLookupGone.cassandraGet "default" "example" = Except.error (K8sErr.other "transient API failure") →
      (syncHandler envLookupGone "default/example").1 =
        some (SyncErr.k8s (K8sErr.other "transient API failure"))) :=
  syncHandler_lookup_errors envLookupGone "default/example" "default" "example"
    "transient API failure" rfl

/-- C8: the status write operates on a deep copy: the single
CassandraCluster Update it issues carries an object whose metadata and
spec are exactly those of the cached object and whose status holds the
StatefulSet's observed CurrentReplicas; the cached object itself (a pure
value in this embedding, so inherently unmutated) is never passed to
Update. -/
theorem updateCassandraClusterStatus_frame (env : Env)
    (cassandracluster : CassandraCluster) (statefulset : StatefulSet) :
    (updateCassandraClusterStatus env cassandracluster statefulset).2 =
      [Effect.clusterUpdate cassandracluster.meta.ns
        { meta := cassandracluster.meta
        , spec := cassandracluster.spec
        , status := { currentReplicas := statefulset.status.currentReplicas } }] := by
  rw [updateCassandraClusterStatus_trace]
  rfl

/-- C2: when the named StatefulSet exists (all fetches succeed) but is
not controller-owned by the CassandraCluster, `syncHandler` returns the
conflict error, performs zero create/update mutations on the StatefulSet,
and emits exactly one `ErrResourceExists` warning event on the
CassandraCluster. -/
theorem syncHandler_ownership_conflict (env : Env) (key ns nm : String)
    (cassandracluster : CassandraCluster) (statefulset : StatefulSet) (svcU svcN : Service)
    (hkey : splitMetaNamespaceKey key = Except.ok (ns, nm))
    (hget : env.cassandraGet ns nm = Except.ok cassandracluster)
    (hname : cassandracluster.spec.statefulSetName ≠ "")
    (hsvcU : env.serviceGet cassandracluster.meta.ns
        (cassandracluster.spec.statefulSetName ++ "-unready") = Except.ok svcU)
    (hsvcN : env.serviceGet cassandracluster.meta.ns
        cassandracluster.spec.statefulSetName = Except.ok svcN)
    (hsts : env.statefulSetListerGet cassandracluster.meta.ns
        cassandracluster.spec.statefulSetName = Except.ok statefulset)
    (hown : isControlledBy statefulset.meta cassandracluster.meta = false) :
    (syncHandler env key).1 =
        some (SyncErr.conflict (messageResourceExists statefulset.meta.name)) ∧
    ((syncHandler env key).2).countP Effect.isStsMutation = 0 ∧
    ((syncHandler env key).2).countP (Effect.isWarningEvent ErrResourceExists) = 1 ∧
    Effect.event cassandracluster "Warning" ErrResourceExists
        (messageResourceExists statefulset.meta.name) ∈ (syncHandler env key).2 := by
  have hu := getOrCreateService_ok env cassandracluster.meta.ns
      (cassandracluster.spec.statefulSetName ++ "-unready")
      (newHeadLessServiceUnready cassandracluster) svcU hsvcU
  have hn := getOrCreateService_ok env cassandracluster.meta.ns
      cassandracluster.spec.statefulSetName (newHeadLessService cassandracluster) svcN hsvcN
  have ht := getOrCreateStatefulSet_ok env cassandracluster.meta.ns
      cassandracluster.spec.statefulSetName (newStatefulSet cassandracluster) statefulset hsts
  have h : syncHandler env key =
      (some (SyncErr.conflict (messageResourceExists statefulset.meta.name)),
       [Effect.svcGet cassandracluster.meta.ns (cassandracluster.spec.statefulSetName ++ "-unready"),
        Effect.svcGet cassandracluster.meta.ns cassandracluster.spec.statefulSetName,
        Effect.stsGet cassandracluster.meta.ns cassandracluster.spec.statefulSetName,
        Effect.event cassandracluster "Warning" ErrResourceExists
          (messageResourceExists statefulset.meta.name)]) := by
    simp [syncHandler, hkey, hget, syncWithCluster, hname, hu, hn, ht,
      syncFromStatefulSet, hown]
  refine ⟨by rw [h], ?_, ?_, ?_⟩ <;> rw [h]
  · rfl
  · simp [List.countP_cons, List.countP_nil, Effect.isWarningEvent]
  · simp

/-- C2 witness at the concrete input `default/example` against an Env
holding a foreign-owned StatefulSet of the expected name. -/
theorem syncHandler_ownership_conflict_witness :
    (syncHandler envForeign "default/example").1 =
        some (SyncErr.conflict (messageResourceExists stsForeign.meta.name)) ∧
    ((syncHandler envForeign "default/example").2).countP Effect.isStsMutation = 0 ∧
    ((syncHandler envForeign "default/example").2).countP
        (Effect.isWarningEvent ErrResourceExists) = 1 ∧
    Effect.event ccSample "Warning" ErrResourceExists
        (messageResourceExists stsForeign.meta.name) ∈
      (syncHandler envForeign "default/example").2 :=
  syncHandler_ownership_conflict envForeign "default/example" "default" "example"
    ccSample stsForeign (newHeadLessServiceUnready ccSample) (newHeadLessService ccSample)
    rfl rfl (by decide) rfl rfl rfl (by decide)

/-- C3: in the converged steady state (both Services and the StatefulSet
exist, the StatefulSet is controller-owned, and its spec replica count
equals the CassandraCluster's) a sync pass issues zero Create or Update
calls to the Services and StatefulSets clients; since `syncHandler` is a
function of the unchanged Env and key, a second consecutive invocation
issues the same — zero additional — writes. -/
theorem syncHandler_idempotent_converged (env : Env) (key ns nm : String)
    (cassandracluster : CassandraCluster) (statefulset : StatefulSet) (svcU svcN : Service)
    (hkey : splitMetaNamespaceKey key = Except.ok (ns, nm))
    (hget : env.cassandraGet ns nm = Except.ok cassandracluster)
    (hname : cassandracluster.spec.statefulSetName ≠ "")
    (hsvcU : env.serviceGet cassandracluster.meta.ns
        (cassandracluster.spec.statefulSetName ++ "-unready") = Except.ok svcU)
    (hsvcN : env.serviceGet cassandracluster.meta.ns
        cassandracluster.spec.statefulSetName = Except.ok svcN)
    (hsts : env.statefulSetListerGet cassandracluster.meta.ns
        cassandracluster.spec.statefulSetName = Except.ok statefulset)
    (hown : isControlledBy statefulset.meta cassandracluster.meta = true)
    (hrepl : cassandracluster.spec.replicas = statefulset.spec.replicas) :
    ((syncHandler env key).2).countP Effect.isSvcStsWrite = 0 := by
  have hu := getOrCreateService_ok env cassandracluster.meta.ns
      (cassandracluster.spec.statefulSetName ++ "-unready")
      (newHeadLessServiceUnready cassandracluster) svcU hsvcU
  have hn := getOrCreateService_ok env cassandracluster.meta.ns
      cassandracluster.spec.statefulSetName (newHeadLessService cassandracluster) svcN hsvcN
  have ht := getOrCreateStatefulSet_ok env cassandracluster.meta.ns
      cassandracluster.spec.statefulSetName (newStatefulSet cassandracluster) statefulset hsts
  have h2 : (syncHandler env key).2 =
      [Effect.svcGet cassandracluster.meta.ns (cassandracluster.spec.statefulSetName ++ "-unready"),
       Effect.svcGet cassandracluster.meta.ns cassandracluster.spec.statefulSetName,
       Effect.stsGet cassandracluster.meta.ns cassandracluster.spec.statefulSetName] ++
      (syncStatus env cassandracluster statefulset).2 := by
    rcases hr : cassandracluster.spec.replicas with _ | r
    · rw [hr] at hrepl
      simp [syncHandler, hkey, hget, syncWithCluster, hname, hu, hn, ht,
        syncFromStatefulSet, hown, hr]
    · rw [hr] at hrepl
      simp [syncHandler, hkey, hget, syncWithCluster, hname, hu, hn, ht,
        syncFromStatefulSet, hown, hr, hrepl.symm]
  rw [h2, List.countP_append, syncStatus_no_svcStsWrite]
  rfl

/-- C3 witness at the concrete input `default/example` against the
converged Env. -/
theorem syncHandler_idempotent_converged_witness :
    ((syncHandler envConverged "default/example").2).countP Effect.isSvcStsWrite = 0 :=
  syncHandler_idempotent_converged envConverged "default/example" "default" "example"
    ccSample stsOwned (newHeadLessServiceUnready ccSample) (newHeadLessService ccSample)
    rfl rfl (by decide) rfl rfl rfl (by decide) (by decide)

/-- C4: drift correction and status convergence.  With desired replicas 3
and an owned StatefulSet at 1 spec replica, the sync pass issues exactly
one StatefulSet Update whose argument is the full `newStatefulSet`
template (so its spec replicas are 3); and in a subsequent pass whose
StatefulSet reports CurrentReplicas 3, the domain-object Update carries
status.currentReplicas = 3. -/
theorem syncHandler_convergence (env1 env2 : Env) (key ns nm : String)
    (cc1 cc2 : CassandraCluster) (sts1 sts2 : StatefulSet) (svc1 svc2 svc3 svc4 : Service)
    (hkey : splitMetaNamespaceKey key = Except.ok (ns, nm))
    (hget1 : env1.cassandraGet ns nm = Except.ok cc1)
    (hname1 : cc1.spec.statefulSetName ≠ "")
    (hsvc1 : env1.serviceGet cc1.meta.ns (cc1.spec.statefulSetName ++ "-unready") = Except.ok svc1)
    (hsvc2 : env1.serviceGet cc1.meta.ns cc1.spec.statefulSetName = Except.ok svc2)
    (hsts1 : env1.statefulSetListerGet cc1.meta.ns cc1.spec.statefulSetName = Except.ok sts1)
    (hown1 : isControlledBy sts1.meta cc1.meta = true)
    (hccr1 : cc1.spec.replicas = some 3)
    (hstsr1 : sts1.spec.replicas = some 1)
    (hget2 : env2.cassandraGet ns nm = Except.ok cc2)
    (hname2 : cc2.spec.statefulSetName ≠ "")
    (hsvc3 : env2.serviceGet cc2.meta.ns (cc2.spec.statefulSetName ++ "-unready") = Except.ok svc3)
    (hsvc4 : env2.serviceGet cc2.meta.ns cc2.spec.statefulSetName = Except.ok svc4)
    (hsts2 : env2.statefulSetListerGet cc2.meta.ns cc2.spec.statefulSetName = Except.ok sts2)
    (hown2 : isControlledBy sts2.meta cc2.meta = true)
    (hrepl2 : cc2.spec.replicas = sts2.spec.replicas)
    (hcur2 : sts2.status.currentReplicas = 3) :
    ((syncHandler env1 key).2).countP Effect.isStsUpdateCall = 1 ∧
    Effect.stsUpdate cc1.meta.ns (newStatefulSet cc1) ∈ (syncHandler env1 key).2 ∧
    (newStatefulSet cc1).spec.replicas = some 3 ∧
    Effect.clusterUpdate cc2.meta.ns
        { meta := cc2.meta, spec := cc2.spec, status := { currentReplicas := 3 } } ∈
      (syncHandler env2 key).2 := by
  have hu1 := getOrCreateService_ok env1 cc1.meta.ns (cc1.spec.statefulSetName ++ "-unready")
      (newHeadLessServiceUnready cc1) svc1 hsvc1
  have hn1 := getOrCreateService_ok env1 cc1.meta.ns cc1.spec.statefulSetName
      (newHeadLessService cc1) svc2 hsvc2
  have ht1 := getOrCreateStatefulSet_ok env1 cc1.meta.ns cc1.spec.statefulSetName
      (newStatefulSet cc1) sts1 hsts1
  have hu2 := getOrCreateService_ok env2 cc2.meta.ns (cc2.spec.statefulSetName ++ "-unready")
      (newHeadLessServiceUnready cc2) svc3 hsvc3
  have hn2 := getOrCreateService_ok env2 cc2.meta.ns cc2.spec.statefulSetName
      (newHeadLessService cc2) svc4 hsvc4
  have ht2 := getOrCreateStatefulSet_ok env2 cc2.meta.ns cc2.spec.statefulSetName
      (newStatefulSet cc2) sts2 hsts2
  have hpart12 : ((syncHandler env1 key).2).countP Effect.isStsUpdateCall = 1 ∧
      Effect.stsUpdate cc1.meta.ns (newStatefulSet cc1) ∈ (syncHandler env1 key).2 := by
    cases hupd : env1.statefulSetUpdate cc1.meta.ns (newStatefulSet cc1) with
    | ok stsNew =>
      have h2 : (syncHandler env1 key).2 =
          [Effect.svcGet cc1.meta.ns (cc1.spec.statefulSetName ++ "-unready"),
           Effect.svcGet cc1.meta.ns cc1.spec.statefulSetName,
           Effect.stsGet cc1.meta.ns cc1.spec.statefulSetName] ++
          (Effect.stsUpdate cc1.meta.ns (newStatefulSet cc1) ::
            (syncStatus env1 cc1 stsNew).2) := by
        simp [syncHandler, hkey, hget1, syncWithCluster, hname1, hu1, hn1, ht1,
          syncFromStatefulSet, hown1, hccr1, hstsr1, hupd]
      constructor
      · rw [h2]
        simp [List.countP_append, List.countP_cons, List.countP_nil,
          syncStatus_no_stsUpdateCall, Effect.isStsUpdateCall]
      · rw [h2]; simp
    | error err =>
      have h2 : (syncHandler env1 key).2 =
          [Effect.svcGet cc1.meta.ns (cc1.spec.statefulSetName ++ "-unready"),
           Effect.svcGet cc1.meta.ns cc1.spec.statefulSetName,
           Effect.stsGet cc1.meta.ns cc1.spec.statefulSetName] ++
          [Effect.stsUpdate cc1.meta.ns (newStatefulSet cc1)] := by
        simp [syncHandler, hkey, hget1, syncWithCluster, hname1, hu1, hn1, ht1,
          syncFromStatefulSet, hown1, hccr1, hstsr1, hupd]
      constructor
      · rw [h2]; rfl
      · rw [h2]; simp
  refine ⟨hpart12.1, hpart12.2, ?_, ?_⟩
  · simp [newStatefulSet, hccr1]
  · have h2 : (syncHandler env2 key).2 =
        [Effect.svcGet cc2.meta.ns (cc2.spec.statefulSetName ++ "-unready"),
         Effect.svcGet cc2.meta.ns cc2.spec.statefulSetName,
         Effect.stsGet cc2.meta.ns cc2.spec.statefulSetName] ++
        (syncStatus env2 cc2 sts2).2 := by
      rcases hr : cc2.spec.replicas with _ | r
      · rw [hr] at hrepl2
        simp [syncHandler, hkey, hget2, syncWithCluster, hname2, hu2, hn2, ht2,
          syncFromStatefulSet, hown2, hr]
      · rw [hr] at hrepl2
        simp [syncHandler, hkey, hget2, syncWithCluster, hname2, hu2, hn2, ht2,
          syncFromStatefulSet, hown2, hr, hrepl2.symm]
    rw [h2]
    rcases syncStatus_trace env2 cc2 sts2 with hst | hst <;> rw [hst] <;>
      simp [CassandraCluster.deepCopy, hcur2]

/-- C4 witness: the drift Env (owned StatefulSet at one replica, desired
three) and the converged Env (StatefulSet reporting three current
replicas), both at `default/example`. -/
theorem syncHandler_convergence_witness :
    ((syncHandler envDrift "default/example").2).countP Effect.isStsUpdateCall = 1 ∧
    Effect.stsUpdate ccSample.meta.ns (newStatefulSet ccSample) ∈
      (syncHandler envDrift "default/example").2 ∧
    (newStatefulSet ccSample).spec.replicas = some 3 ∧
    Effect.clusterUpdate ccSample.meta.ns
        { meta := ccSample.meta, spec := ccSample.spec, status := { currentReplicas := 3 } } ∈
      (syncHandler envConverged "default/example").2 :=
  syncHandler_convergence envDrift envConverged "default/example" "default" "example"
    ccSample ccSample stsDrift stsOwned
    (newHeadLessServiceUnready ccSample) (newHeadLessService ccSample)
    (newHeadLessServiceUnready ccSample) (newHeadLessService ccSample)
    rfl rfl (by decide) rfl rfl rfl (by decide) rfl rfl
    rfl (by decide) rfl rfl rfl (by decide) (by decide) rfl

/-- syncFromStatefulSet_one_clusterUpdate: when the ownership/drift/status
phase returns nil, it has issued exactly one CassandraCluster Update. -/
theorem syncFromStatefulSet_one_clusterUpdate (env : Env)
    (cassandracluster : CassandraCluster) (statefulset : StatefulSet)
    (h : (syncFromStatefulSet env cassandracluster statefulset).1 = none) :
    ((syncFromStatefulSet env cassandracluster statefulset).2).countP
      Effect.isClusterUpdateCall = 1 := by
  by_cases hc : isControlledBy statefulset.meta cassandracluster.meta = true
  · rcases hr : cassandracluster.spec.replicas with _ | desired
    · have hb : syncFromStatefulSet env cassandracluster statefulset =
          syncStatus env cassandracluster statefulset := by
        simp [syncFromStatefulSet, hc, hr]
      rw [hb]
      exact syncStatus_one_clusterUpdate env cassandracluster statefulset
    · rcases hstsr : statefulset.spec.replicas with _ | current
      · exfalso
        have hbad : (syncFromStatefulSet env cassandracluster statefulset).1 =
            some SyncErr.nilDeref := by
          simp [syncFromStatefulSet, hc, hr, hstsr]
        rw [hbad] at h
        exact Option.noConfusion h
      · by_cases hne : (desired != current) = true
        · cases hupd : env.statefulSetUpdate cassandracluster.meta.ns
              (newStatefulSet cassandracluster) with
          | ok sts2 =>
            have hb : (syncFromStatefulSet env cassandracluster statefulset).2 =
                Effect.stsUpdate cassandracluster.meta.ns (newStatefulSet cassandracluster) ::
                (syncStatus env cassandracluster sts2).2 := by
              simp [syncFromStatefulSet, hc, hr, hstsr, hne, hupd]
            rw [hb]
            simp [List.countP_cons, syncStatus_one_clusterUpdate, Effect.isClusterUpdateCall]
          | error err =>
            exfalso
            have hbad : (syncFromStatefulSet env cassandracluster statefulset).1 =
                some (SyncErr.k8s err) := by
              simp [syncFromStatefulSet, hc, hr, hstsr, hne, hupd]
            rw [hbad] at h
            exact Option.noConfusion h
        · have hb : syncFromStatefulSet env cassandracluster statefulset =
              syncStatus env cassandracluster statefulset := by
            simp [syncFromStatefulSet, hc, hr, hstsr, hne]
          rw [hb]
          exact syncStatus_one_clusterUpdate env cassandracluster statefulset
  · exfalso
    simp only [Bool.not_eq_true] at hc
    have hbad : (syncFromStatefulSet env cassandracluster statefulset).1 =
        some (SyncErr.conflict (messageResourceExists statefulset.meta.name)) := by
      simp [syncFromStatefulSet, hc]
    rw [hbad] at h
    exact Option.noConfusion h

/-- syncWithCluster_one_clusterUpdate: a per-object sync body that returns
nil with a non-empty target name has issued exactly one CassandraCluster
Update. -/
theorem syncWithCluster_one_clusterUpdate (env : Env) (key : String)
    (cassandracluster : CassandraCluster)
    (hname : cassandracluster.spec.statefulSetName ≠ "")
    (h : (syncWithCluster env key cassandracluster).1 = none) :
    ((syncWithCluster env key cassandracluster).2).countP Effect.isClusterUpdateCall = 1 := by
  cases h1 : (getOrCreateService env cassandracluster.meta.ns
      (cassandracluster.spec.statefulSetName ++ "-unready")
      (newHeadLessServiceUnready cassandracluster)).1 with
  | some e1 =>
    exfalso
    have hbad : (syncWithCluster env key cassandracluster).1 = some (SyncErr.k8s e1) := by
      simp [syncWithCluster, hname, h1]
    rw [hbad] at h
    exact Option.noConfusion h
  | none =>
    cases h2 : (getOrCreateService env cassandracluster.meta.ns
        cassandracluster.spec.statefulSetName (newHeadLessService cassandracluster)).1 with
    | some e2 =>
      exfalso
      have hbad : (syncWithCluster env key cassandracluster).1 = some (SyncErr.k8s e2) := by
        simp [syncWithCluster, hname, h1, h2]
      rw [hbad] at h
      exact Option.noConfusion h
    | none =>
      cases h3 : (getOrCreateStatefulSet env cassandracluster.meta.ns
          cassandracluster.spec.statefulSetName (newStatefulSet cassandracluster)).1 with
      | error e3 =>
        exfalso
        have hbad : (syncWithCluster env key cassandracluster).1 = some (SyncErr.k8s e3) := by
          simp [syncWithCluster, hname, h1, h2, h3]
        rw [hbad] at h
        exact Option.noConfusion h
      | ok statefulset =>
        have hres : (syncWithCluster env key cassandracluster).1 =
            (syncFromStatefulSet env cassandracluster statefulset).1 := by
          simp [syncWithCluster, hname, h1, h2, h3]
        rw [hres] at h
        have ht : (syncWithCluster env key cassandracluster).2 =
            (getOrCreateService env cassandracluster.meta.ns
              (cassandracluster.spec.statefulSetName ++ "-unready")
              (newHeadLessServiceUnready cassandracluster)).2 ++
            ((getOrCreateService env cassandracluster.meta.ns
              cassandracluster.spec.statefulSetName (newHeadLessService cassandracluster)).2 ++
             ((getOrCreateStatefulSet env cassandracluster.meta.ns
               cassandracluster.spec.statefulSetName (newStatefulSet cassandracluster)).2 ++
              (syncFromStatefulSet env cassandracluster statefulset).2)) := by
          simp [syncWithCluster, hname, h1, h2, h3]
        rw [ht, List.countP_append, List.countP_append, List.countP_append,
          getOrCreateService_no_clusterUpdate, getOrCreateService_no_clusterUpdate,
          getOrCreateStatefulSet_no_clusterUpdate,
          syncFromStatefulSet_one_clusterUpdate env cassandracluster statefulset h]

/-- C10: every fully successful sync pass (lookup succeeded, target name
non-empty, nil result) issues exactly one CassandraCluster Update — the
status write is unconditional even when the stored status already equals
the observed CurrentReplicas. -/
theorem syncHandler_success_one_status_write (env : Env) (key ns nm : String)
    (cassandracluster : CassandraCluster)
    (hkey : splitMetaNamespaceKey key = Except.ok (ns, nm))
    (hget : env.cassandraGet ns nm = Except.ok cassandracluster)
    (hname : cassandracluster.spec.statefulSetName ≠ "")
    (hres : (syncHandler env key).1 = none) :
    ((syncHandler env key).2).countP Effect.isClusterUpdateCall = 1 := by
  have hsw : syncHandler env key = syncWithCluster env key cassandracluster := by
    simp [syncHandler, hkey, hget]
  rw [hsw] at hres ⊢
  exact syncWithCluster_one_clusterUpdate env key cassandracluster hname hres

/-- C10 witness: the converged Env, where the cached status (0) is then
overwritten by the observed value with exactly one domain-object Update;
the cached CurrentReplicas equals the observed one in `envConverged`
variants alike, and the write still happens. -/
theorem syncHandler_success_one_status_write_witness :
    ((syncHandler envConverged "default/example").2).countP Effect.isClusterUpdateCall = 1 :=
  syncHandler_success_one_status_write envConverged "default/example" "default" "example"
    ccSample rfl rfl (by decide) (by decide)

/-- C9: the derived resources are reconciled in the fixed order
unready Service, Service, StatefulSet, and after each get-or-create block
the error is checked immediately: a non-NotFound Get error, or a NotFound
Get followed by a failing Create, aborts the whole sync with that error
and with a trace showing no later derived resource was fetched or
created (the spec's suspected "proceeds past an error" latent bug is not
present in the code). -/
theorem syncHandler_fixed_order_abort (env : Env) (key ns nm : String)
    (cassandracluster : CassandraCluster) (svcU svcN : Service)
    (eU eN eT cU cN cT : K8sErr)
    (hkey : splitMetaNamespaceKey key = Except.ok (ns, nm))
    (hget : env.cassandraGet ns nm = Except.ok cassandracluster)
    (hname : cassandracluster.spec.statefulSetName ≠ "")
    (heU : eU.isNotFound = false) (heN : eN.isNotFound = false)
    (heT : eT.isNotFound = false) :
    (env.serviceGet cassandracluster.meta.ns
        (cassandracluster.spec.statefulSetName ++ "-unready") = Except.error eU →
      syncHandler env key = (some (SyncErr.k8s eU),
        [Effect.svcGet cassandracluster.meta.ns
          (cassandracluster.spec.statefulSetName ++ "-unready")])) ∧
    (env.serviceGet cassandracluster.meta.ns
        (cassandracluster.spec.statefulSetName ++ "-unready") = Except.error K8sErr.notFound →
     env.serviceCreate cassandracluster.meta.ns
        (newHeadLessServiceUnready cassandracluster) = Except.error cU →
      syncHandler env key = (some (SyncErr.k8s cU),
        [Effect.svcGet cassandracluster.meta.ns
          (cassandracluster.spec.statefulSetName ++ "-unready"),
         Effect.svcCreate cassandracluster.meta.ns
          (newHeadLessServiceUnready cassandracluster)])) ∧
    (env.serviceGet cassandracluster.meta.ns
        (cassandracluster.spec.statefulSetName ++ "-unready") = Except.ok svcU →
     env.serviceGet cassandracluster.meta.ns
        cassandracluster.spec.statefulSetName = Except.error eN →
      syncHandler env key = (some (SyncErr.k8s eN),
        [Effect.svcGet cassandracluster.meta.ns
          (cassandracluster.spec.statefulSetName ++ "-unready"),
         Effect.svcGet cassandracluster.meta.ns cassandracluster.spec.statefulSetName])) ∧
    (env.serviceGet cassandracluster.meta.ns
        (cassandracluster.spec.statefulSetName ++ "-unready") = Except.ok svcU →
     env.serviceGet cassandracluster.meta.ns
        cassandracluster.spec.statefulSetName = Except.error K8sErr.notFound →
     env.serviceCreate cassandracluster.meta.ns
        (newHeadLessService cassandracluster) = Except.error cN →
      syncHandler env key = (some (SyncErr.k8s cN),
        [Effect.svcGet cassandracluster.meta.ns
          (cassandracluster.spec.statefulSetName ++ "-unready"),
         Effect.svcGet cassandracluster.meta.ns cassandracluster.spec.statefulSetName,
         Effect.svcCreate cassandracluster.meta.ns (newHeadLessService cassandracluster)])) ∧
    (env.serviceGet cassandracluster.meta.ns
        (cassandracluster.spec.statefulSetName ++ "-unready") = Except.ok svcU →
     env.serviceGet cassandracluster.meta.ns
        cassandracluster.spec.statefulSetName = Except.ok svcN →
     env.statefulSetListerGet cassandracluster.meta.ns
        cassandracluster.spec.statefulSetName = Except.error eT →
      syncHandler env key = (some (SyncErr.k8s eT),
        [Effect.svcGet cassandracluster.meta.ns
          (cassandracluster.spec.statefulSetName ++ "-unready"),
         Effect.svcGet cassandracluster.meta.ns cassandracluster.spec.statefulSetName,
         Effect.stsGet cassandracluster.meta.ns cassandracluster.spec.statefulSetName])) ∧
    (env.serviceGet cassandracluster.meta.ns
        (cassandracluster.spec.statefulSetName ++ "-unready") = Except.ok svcU →
     env.serviceGet cassandracluster.meta.ns
        cassandracluster.spec.statefulSetName = Except.ok svcN →
     env.statefulSetListerGet cassandracluster.meta.ns
        cassandracluster.spec.statefulSetName = Except.error K8sErr.notFound →
     env.statefulSetCreate cassandracluster.meta.ns
        (newStatefulSet cassandracluster) = Except.error cT →
      syncHandler env key = (some (SyncErr.k8s cT),
        [Effect.svcGet cassandracluster.meta.ns
          (cassandracluster.spec.statefulSetName ++ "-unready"),
         Effect.svcGet cassandracluster.meta.ns cassandracluster.spec.statefulSetName,
         Effect.stsGet cassandracluster.meta.ns cassandracluster.spec.statefulSetName,
         Effect.stsCreate cassandracluster.meta.ns (newStatefulSet cassandracluster)])) := by
  refine ⟨?_, ?_, ?_, ?_, ?_, ?_⟩
  · intro hU
    simp [syncHandler, hkey, hget, syncWithCluster, hname, getOrCreateService, hU, heU]
  · intro hU hC
    simp [syncHandler, hkey, hget, syncWithCluster, hname, getOrCreateService, hU, hC,
      K8sErr.isNotFound]
  · intro hU hN
    simp [syncHandler, hkey, hget, syncWithCluster, hname,
      getOrCreateService, hU, hN, heN]
  · intro hU hN hC
    simp [syncHandler, hkey, hget, syncWithCluster, hname,
      getOrCreateService, hU, hN, hC, K8sErr.isNotFound]
  · intro hU hN hT
    simp [syncHandler, hkey, hget, syncWithCluster, hname,
      getOrCreateService, hU, hN, getOrCreateStatefulSet, hT, heT]
  · intro hU hN hT hC
    simp [syncHandler, hkey, hget, syncWithCluster, hname,
      getOrCreateService, hU, hN, getOrCreateStatefulSet, hT, hC, K8sErr.isNotFound]

/-- C9 witness at `default/example` against an Env whose Service Get
fails with a transient error: the first conjunct's antecedent is
concretely satisfied. -/
theorem syncHandler_fixed_order_abort_witness :
    (envSvcFail.serviceGet ccSample.meta.ns
        (ccSample.spec.statefulSetName ++ "-unready") =
          Except.error (K8sErr.other "transient API failure") →
      syncHandler envSvcFail "default/example" =
        (some (SyncErr.k8s (K8sErr.other "transient API failure")),
        [Effect.svcGet ccSample.meta.ns (ccSample.spec.statefulSetName ++ "-unready")])) ∧
    (envSvcFail.serviceGet ccSample.meta.ns
        (ccSample.spec.statefulSetName ++ "-unready") = Except.error K8sErr.notFound →
     envSvcFail.serviceCreate ccSample.meta.ns (newHeadLessServiceUnready ccSample) =
          Except.error (K8sErr.other "create failed") →
      syncHandler envSvcFail "default/example" =
        (some (SyncErr.k8s (K8sErr.other "create failed")),
        [Effect.svcGet ccSample.meta.ns (ccSample.spec.statefulSetName ++ "-unready"),
         Effect.svcCreate ccSample.meta.ns (newHeadLessServiceUnready ccSample)])) ∧
    (envSvcFail.serviceGet ccSample.meta.ns
        (ccSample.spec.statefulSetName ++ "-unready") =
          Except.ok (newHeadLessServiceUnready ccSample) →
     envSvcFail.serviceGet ccSample.meta.ns ccSample.spec.statefulSetName =
          Except.error (K8sErr.other "transient API failure") →
      syncHandler envSvcFail "default/example" =
        (some (SyncErr.k8s (K8sErr.other "transient API failure")),
        [Effect.svcGet ccSample.meta.ns (ccSample.spec.statefulSetName ++ "-unready"),
         Effect.svcGet ccSample.meta.ns ccSample.spec.statefulSetName])) ∧
    (envSvcFail.serviceGet ccSample.meta.ns
        (ccSample.spec.statefulSetName ++ "-unready") =
          Except.ok (newHeadLessServiceUnready ccSample) →
     envSvcFail.serviceGet ccSample.meta.ns ccSample.spec.statefulSetName =
          Except.error K8sErr.notFound →
     envSvcFail.serviceCreate ccSample.meta.ns (newHeadLessService ccSample) =
          Except.error (K8sErr.other "create failed") →
      syncHandler envSvcFail "default/example" =
        (some (SyncErr.k8s (K8sErr.other "create failed")),
        [Effect.svcGet ccSample.meta.ns (ccSample.spec.statefulSetName ++ "-unready"),
         Effect.svcGet ccSample.meta.ns ccSample.spec.statefulSetName,
         Effect.svcCreate ccSample.meta.ns (newHeadLessService ccSample)])) ∧
    (envSvcFail.serviceGet ccSample.meta.ns
        (ccSample.spec.statefulSetName ++ "-unready") =
          Except.ok (newHeadLessServiceUnready ccSample) →
     envSvcFail.serviceGet ccSample.meta.ns ccSample.spec.statefulSetName =
          Except.ok (newHeadLessService ccSample) →
     envSvcFail.statefulSetListerGet ccSample.meta.ns ccSample.spec.statefulSetName =
          Except.error (K8sErr.other "transient API failure") →
      syncHandler envSvcFail "default/example" =
        (some (SyncErr.k8s (K8sErr.other "transient API failure")),
        [Effect.svcGet ccSample.meta.ns (ccSample.spec.statefulSetName ++ "-unready"),
         Effect.svcGet ccSample.meta.ns ccSample.spec.statefulSetName,
         Effect.stsGet ccSample.meta.ns ccSample.spec.statefulSetName])) ∧
    (envSvcFail.serviceGet ccSample.meta.ns
        (ccSample.spec.statefulSetName ++ "-unready") =
          Except.ok (newHeadLessServiceUnready ccSample) →
     envSvcFail.serviceGet ccSample.meta.ns ccSample.spec.statefulSetName =
          Except.ok (newHeadLessService ccSample) →
     envSvcFail.statefulSetListerGet ccSample.meta.ns ccSample.spec.statefulSetName =
          Except.error K8sErr.notFound →
     envSvcFail.statefulSetCreate ccSample.meta.ns (newStatefulSet ccSample) =
          Except.error (K8sErr.other "create failed") →
      syncHandler envSvcFail "default/example" =
        (some (SyncErr.k8s (K8sErr.other "create failed")),
        [Effect.svcGet ccSample.meta.ns (ccSample.spec.statefulSetName ++ "-unready"),
         Effect.svcGet ccSample.meta.ns ccSample.spec.statefulSetName,
         Effect.stsGet ccSample.meta.ns ccSample.spec.statefulSetName,
         Effect.stsCreate ccSample.meta.ns (newStatefulSet ccSample)])) :=
  syncHandler_fixed_order_abort envSvcFail "default/example" "default" "example"
    ccSample (newHeadLessServiceUnready ccSample) (newHeadLessService ccSample)
    (K8sErr.other "transient API failure") (K8sErr.other "transient API failure")
    (K8sErr.other "transient API failure") (K8sErr.other "create failed")
    (K8sErr.other "create failed") (K8sErr.other "create failed")
    rfl rfl (by decide) rfl rfl rfl

/-- C7 counterexample: the claim says the UpdateFunc of every watched
kind suppresses equal-resourceVersion updates; the CassandraCluster
handler does not compare versions — with old and new the same object
(equal resourceVersion by reflexivity) it still enqueues a rate-limited
add. -/
theorem cassandraClusterUpdateFunc_no_suppression :
    ccSample.meta.resourceVersion = ccSample.meta.resourceVersion ∧
    cassandraClusterUpdateFunc ccSample ccSample =
      [Effect.qAddRateLimited "default/example"] := ⟨rfl, by decide⟩

/-- C7 (amended): only the StatefulSet UpdateFunc suppresses
equal-resourceVersion (resync-induced) update notifications; the
CassandraCluster UpdateFunc enqueues the new object unconditionally. -/
theorem updateFunc_resync_suppression (env : Env) (oldSts newSts : StatefulSet)
    (oldCc newCc : CassandraCluster)
    (hrv : newSts.meta.resourceVersion = oldSts.meta.resourceVersion) :
    statefulSetUpdateFunc env oldSts newSts = [] ∧
    cassandraClusterUpdateFunc oldCc newCc =
      [Effect.qAddRateLimited (metaNamespaceKeyFunc newCc.meta)] := by
  constructor
  · simp [statefulSetUpdateFunc, hrv]
  · rfl

/-- C7 witness: the same StatefulSet delivered twice (equal resource
versions) is dropped, while the CassandraCluster handler enqueues. -/
theorem updateFunc_resync_suppression_witness :
    statefulSetUpdateFunc envConverged stsOwned stsOwned = [] ∧
    cassandraClusterUpdateFunc ccSample ccSample =
      [Effect.qAddRateLimited (metaNamespaceKeyFunc ccSample.meta)] :=
  updateFunc_resync_suppression envConverged stsOwned stsOwned ccSample ccSample rfl
